import Mathlib

/-!
Shallow embedding of `src/components/shooter.py` (class `Shooter`): the
targeting and velocity-control core of a dual-flywheel launcher.

Python floats are idealised as rationals (`ℚ`).  Python's `float.__truediv__`
raises `ZeroDivisionError` on a zero divisor, so the one division in
`Shooter.execute` is embedded in `Except`.  Hardware collaborators
(`ctre.WPI_TalonFX` motors, `wpilib.Solenoid` piston,
`wpilib.RobotController` voltage sensor) are modelled as explicit inputs and
as records of the commands `execute` emits to them.
-/

namespace Shooter

/-- `Shooter.COUNTS_PER_REV = 2048`. -/
def COUNTS_PER_REV : ℚ := 2048

/-- `Shooter.RPS_TO_CTRE_UNITS = COUNTS_PER_REV / 10` (counts per 100 ms). -/
def RPS_TO_CTRE_UNITS : ℚ := COUNTS_PER_REV / 10

/-- `Shooter.CTRE_UNITS_TO_RPS = 1 / RPS_TO_CTRE_UNITS`. -/
def CTRE_UNITS_TO_RPS : ℚ := 1 / RPS_TO_CTRE_UNITS

/-- `Shooter.ranges = (0, 7, 8, 9, 10, 11)`. -/
def ranges : List ℚ := [0, 7, 8, 9, 10, 11]

/-- `Shooter.centre_rpms = (0, 880, 1120, 1500, 2150, 2400)`. -/
def centre_rpms : List ℚ := [0, 880, 1120, 1500, 2150, 2400]

/-- `Shooter.outer_rpms = (5000, 5000, 5000, 5000, 5000, 5000)`. -/
def outer_rpms : List ℚ := [5000, 5000, 5000, 5000, 5000, 5000]

/-- `Math.signum` as used by wpilib: -1, 0 or 1 according to sign. -/
def signum (x : ℚ) : ℚ :=
  if x < 0 then -1 else if x = 0 then 0 else 1

/-- Model of `wpilib.controller.SimpleMotorFeedforward` restricted to the
constants the source configures (`kS`, `kV`; `kA` defaults to zero). -/
structure SimpleMotorFeedforward where
  kS : ℚ
  kV : ℚ
deriving DecidableEq

/-- `SimpleMotorFeedforward.calculate(velocity)` with zero acceleration:
`kS * signum(velocity) + kV * velocity`. -/
def SimpleMotorFeedforward.calculate (m : SimpleMotorFeedforward) (velocity : ℚ) : ℚ :=
  m.kS * signum velocity + m.kV * velocity

/-- `self.centre_ff_calculator = controller.SimpleMotorFeedforward(kS=0.158, kV=0.11)`. -/
def centre_ff_calculator : SimpleMotorFeedforward := ⟨0.158, 0.11⟩

/-- `self.outer_ff_calculator = controller.SimpleMotorFeedforward(kS=0.187, kV=0.11)`. -/
def outer_ff_calculator : SimpleMotorFeedforward := ⟨0.187, 0.11⟩

/-- The mutable attributes of a `Shooter` instance: the fields written in
`__init__` plus the two `tunable` targets. -/
structure State where
  inject : Bool
  in_range : Bool
  velocity_tolerance : ℚ
  centre_target : ℚ
  outer_target : ℚ
deriving DecidableEq

/-- State after `__init__`, with the `tunable(0)` defaults for both targets. -/
def init : State :=
  { inject := false
    in_range := false
    velocity_tolerance := 0.05
    centre_target := 0
    outer_target := 0 }

/-- `Shooter.fire`: latch the pending-injection flag. -/
def fire (s : State) : State := { s with inject := true }

/-- `numpy.interp(x, xp, fp)` on parallel lists: clamp below the first and
above the last breakpoint, linear interpolation in between. -/
def interp (x : ℚ) : List ℚ → List ℚ → ℚ
  | x0 :: x1 :: xs, y0 :: y1 :: ys =>
    if x ≤ x0 then y0
    else if x ≤ x1 then y0 + (x - x0) * (y1 - y0) / (x1 - x0)
    else interp x (x1 :: xs) (y1 :: ys)
  | _ :: _, y0 :: _ => y0
  | _, _ => 0

/-- `Shooter.set_range(dist)`: set `in_range` according to
`ranges[0] <= dist <= ranges[-1]`, clamp `dist` to the table bounds
otherwise, and map the (possibly clamped) distance through `numpy.interp`
for both flywheel targets. -/
def set_range (s : State) (dist : ℚ) : State :=
  if ranges.headD 0 ≤ dist ∧ dist ≤ ranges.getLastD 0 then
    { s with in_range := true
             centre_target := interp dist ranges centre_rpms
             outer_target := interp dist ranges outer_rpms }
  else
    let d := min (ranges.getLastD 0) (max dist (ranges.headD 0))
    { s with in_range := false
             centre_target := interp d ranges centre_rpms
             outer_target := interp d ranges outer_rpms }

/-- `Shooter.get_centre_velocity`: selected sensor velocity (counts per
100 ms) converted to rps. -/
def get_centre_velocity (sensorVelocity : ℚ) : ℚ :=
  sensorVelocity * CTRE_UNITS_TO_RPS

/-- `Shooter.get_outer_velocity`: selected sensor velocity (counts per
100 ms) converted to rps. -/
def get_outer_velocity (sensorVelocity : ℚ) : ℚ :=
  sensorVelocity * CTRE_UNITS_TO_RPS

/-- The centre-flywheel conjunct of `Shooter.is_at_speed`:
`abs(centre_target - get_centre_velocity()) <= centre_target * velocity_tolerance`. -/
def centre_at_speed (s : State) (centreSensor : ℚ) : Bool :=
  |s.centre_target - get_centre_velocity centreSensor| ≤
    s.centre_target * s.velocity_tolerance

/-- The outer-flywheel conjunct of `Shooter.is_at_speed`:
`abs(outer_target - get_outer_velocity()) <= outer_target * velocity_tolerance`. -/
def outer_at_speed (s : State) (outerSensor : ℚ) : Bool :=
  |s.outer_target - get_outer_velocity outerSensor| ≤
    s.outer_target * s.velocity_tolerance

/-- `Shooter.is_at_speed`: conjunction of the two per-flywheel conditions,
taking the raw sensor velocities as inputs. -/
def is_at_speed (s : State) (centreSensor outerSensor : ℚ) : Bool :=
  centre_at_speed s centreSensor && outer_at_speed s outerSensor

/-- `Shooter.is_firing`: delegates to `loading_piston.get()`, an external
input. -/
def is_firing (pistonState : Bool) : Bool := pistonState

/-- `Shooter.is_in_range`. -/
def is_in_range (s : State) : Bool := s.in_range

/-- `Shooter.is_ready`:
`is_in_range() and is_at_speed() and not is_firing()`. -/
def is_ready (s : State) (centreSensor outerSensor : ℚ) (pistonState : Bool) : Bool :=
  is_in_range s && is_at_speed s centreSensor outerSensor && !is_firing pistonState

/-- One velocity-mode command sent to a `WPI_TalonFX`: the demand value
(`target * RPS_TO_CTRE_UNITS`, in counts per 100 ms) and the
`ArbitraryFeedForward` demand. -/
structure MotorCmd where
  setpoint : ℚ
  feedforward : ℚ
deriving DecidableEq

/-- The externally visible effect of one `Shooter.execute` call: the two
motor commands and whether `loading_piston.startPulse()` was invoked. -/
structure ExecOut where
  centre : MotorCmd
  outer : MotorCmd
  pulse : Bool
deriving DecidableEq

/-- `Shooter.execute`: read the supply voltage, compute each feedforward as
`ff_calculator.calculate(target) / voltage` (Python raises
`ZeroDivisionError` when `voltage` is zero — there is no guard in the
source), command both motors in velocity mode, then issue the pending pulse
and clear `inject` if it was latched. -/
def execute (s : State) (voltage : ℚ) : Except String (ExecOut × State) :=
  if voltage = 0 then Except.error "float division by zero"
  else
    let centre_feed_forward := centre_ff_calculator.calculate s.centre_target / voltage
    let outer_feed_forward := outer_ff_calculator.calculate s.outer_target / voltage
    let out : ExecOut :=
      { centre := { setpoint := s.centre_target * RPS_TO_CTRE_UNITS
                    feedforward := centre_feed_forward }
        outer := { setpoint := s.outer_target * RPS_TO_CTRE_UNITS
                   feedforward := outer_feed_forward }
        pulse := s.inject }
    Except.ok (out, if s.inject then { s with inject := false } else s)

end Shooter

namespace Shooter

/-- The calibration table as `(distance, centreVelocity, outerVelocity)`
samples, pairing the three parallel tuples of the source. -/
def samples : List (ℚ × ℚ × ℚ) := ranges.zip (centre_rpms.zip outer_rpms)

lemma interp_le {x x0 x1 y0 y1 : ℚ} {xs ys : List ℚ} (h : x ≤ x0) :
    interp x (x0 :: x1 :: xs) (y0 :: y1 :: ys) = y0 := by
  simp [interp, h]

lemma interp_seg {x x0 x1 y0 y1 : ℚ} {xs ys : List ℚ} (h1 : x0 < x) (h2 : x ≤ x1) :
    interp x (x0 :: x1 :: xs) (y0 :: y1 :: ys) = y0 + (x - x0) * (y1 - y0) / (x1 - x0) := by
  simp [interp, not_le.2 h1, h2]

lemma interp_gt {x x0 x1 y0 y1 : ℚ} {xs ys : List ℚ} (h1 : x0 < x) (h2 : x1 < x) :
    interp x (x0 :: x1 :: xs) (y0 :: y1 :: ys) = interp x (x1 :: xs) (y1 :: ys) := by
  simp [interp, not_le.2 h1, not_le.2 h2]

lemma set_range_in_bounds (s : State) (d : ℚ) (h0 : 0 ≤ d) (h1 : d ≤ 11) :
    set_range s d = { s with in_range := true
                             centre_target := interp d ranges centre_rpms
                             outer_target := interp d ranges outer_rpms } := by
  rw [set_range, if_pos]
  refine ⟨?_, ?_⟩ <;> simp [ranges] <;> linarith

/-- C3: for every distance between the first and last table distance
inclusive, `set_range` sets `in_range` to `true` and sets both targets to
the exact piecewise-linear interpolation of the two bracketing table
samples. -/
theorem set_range_in_bounds_interpolates (s : State) (d x0 x1 yc0 yc1 yo0 yo1 : ℚ)
    (hadj : ((x0, yc0, yo0), (x1, yc1, yo1)) ∈ samples.zip samples.tail)
    (h0 : x0 ≤ d) (h1 : d ≤ x1) :
    (set_range s d).in_range = true ∧
    (set_range s d).centre_target = yc0 + (d - x0) * (yc1 - yc0) / (x1 - x0) ∧
    (set_range s d).outer_target = yo0 + (d - x0) * (yo1 - yo0) / (x1 - x0) := by
  simp only [samples, ranges, centre_rpms, outer_rpms, List.zip, List.zipWith, List.tail,
    List.mem_cons, List.not_mem_nil, or_false, Prod.mk.injEq] at hadj
  obtain ⟨⟨hx0, hyc0, hyo0⟩, hx1, hyc1, hyo1⟩ | ⟨⟨hx0, hyc0, hyo0⟩, hx1, hyc1, hyo1⟩ |
    ⟨⟨hx0, hyc0, hyo0⟩, hx1, hyc1, hyo1⟩ | ⟨⟨hx0, hyc0, hyo0⟩, hx1, hyc1, hyo1⟩ |
    ⟨⟨hx0, hyc0, hyo0⟩, hx1, hyc1, hyo1⟩ := hadj <;>
    subst hx0 <;> subst hyc0 <;> subst hyo0 <;> subst hx1 <;> subst hyc1 <;> subst hyo1 <;>
    rw [set_range_in_bounds s d (by linarith) (by linarith)] <;>
    refine ⟨rfl, ?_, ?_⟩ <;> rcases eq_or_lt_of_le h0 with rfl | hlt
  · norm_num [ranges, centre_rpms, interp]
  · rw [ranges, centre_rpms, interp_seg hlt h1]
  · norm_num [ranges, outer_rpms, interp]
  · rw [ranges, outer_rpms, interp_seg hlt h1]
  · norm_num [ranges, centre_rpms, interp]
  · rw [ranges, centre_rpms, interp_gt (by linarith) (by linarith), interp_seg hlt h1]
  · norm_num [ranges, outer_rpms, interp]
  · rw [ranges, outer_rpms, interp_gt (by linarith) (by linarith), interp_seg hlt h1]
  · norm_num [ranges, centre_rpms, interp]
  · rw [ranges, centre_rpms, interp_gt (by linarith) (by linarith),
      interp_gt (by linarith) (by linarith), interp_seg hlt h1]
  · norm_num [ranges, outer_rpms, interp]
  · rw [ranges, outer_rpms, interp_gt (by linarith) (by linarith),
      interp_gt (by linarith) (by linarith), interp_seg hlt h1]
  · norm_num [ranges, centre_rpms, interp]
  · rw [ranges, centre_rpms, interp_gt (by linarith) (by linarith),
      interp_gt (by linarith) (by linarith), interp_gt (by linarith) (by linarith),
      interp_seg hlt h1]
  · norm_num [ranges, outer_rpms, interp]
  · rw [ranges, outer_rpms, interp_gt (by linarith) (by linarith),
      interp_gt (by linarith) (by linarith), interp_gt (by linarith) (by linarith),
      interp_seg hlt h1]
  · norm_num [ranges, centre_rpms, interp]
  · rw [ranges, centre_rpms, interp_gt (by linarith) (by linarith),
      interp_gt (by linarith) (by linarith), interp_gt (by linarith) (by linarith),
      interp_gt (by linarith) (by linarith), interp_seg hlt h1]
  · norm_num [ranges, outer_rpms, interp]
  · rw [ranges, outer_rpms, interp_gt (by linarith) (by linarith),
      interp_gt (by linarith) (by linarith), interp_gt (by linarith) (by linarith),
      interp_gt (by linarith) (by linarith), interp_seg hlt h1]

/-- Witness for C3 at the spec's own example: distance `7.5` between the
samples `(7, 880)` and `(8, 1120)` yields centre target `1000`. -/
theorem set_range_in_bounds_interpolates_witness :
    (set_range init 7.5).in_range = true ∧
    (set_range init 7.5).centre_target = 1000 ∧
    (set_range init 7.5).outer_target = 5000 := by
  have h := set_range_in_bounds_interpolates init 7.5 7 8 880 1120 5000 5000
    (by simp [samples, ranges, centre_rpms, outer_rpms]) (by norm_num) (by norm_num)
  exact ⟨h.1, by rw [h.2.1]; norm_num, by rw [h.2.2]; norm_num⟩

end Shooter

namespace Shooter

lemma set_range_out_clamps (s : State) (d : ℚ) (h : ¬ (0 ≤ d ∧ d ≤ 11)) :
    set_range s d = { s with in_range := false
                             centre_target := interp (min 11 (max d 0)) ranges centre_rpms
                             outer_target := interp (min 11 (max d 0)) ranges outer_rpms } := by
  rw [set_range, if_neg]
  · simp [ranges]
  · simpa [ranges] using h

/-- C4: for every distance strictly below the minimum table distance or
strictly above the maximum, `set_range` sets `in_range` to `false` and sets
both targets to the nearest boundary sample's velocities — clamped, never
extrapolated. -/
theorem set_range_out_of_bounds_clamps (s : State) (d : ℚ) (h : d < 0 ∨ 11 < d) :
    (set_range s d).in_range = false ∧
    (d < 0 → (set_range s d).centre_target = 0 ∧ (set_range s d).outer_target = 5000) ∧
    (11 < d → (set_range s d).centre_target = 2400 ∧ (set_range s d).outer_target = 5000) := by
  have hc : ¬ (0 ≤ d ∧ d ≤ 11) := by
    rcases h with h | h <;> rintro ⟨h0, h1⟩ <;> linarith
  rw [set_range_out_clamps s d hc]
  refine ⟨rfl, fun hlo => ?_, fun hhi => ?_⟩
  · rw [max_eq_right hlo.le, min_eq_right (by norm_num : (0:ℚ) ≤ 11)]
    constructor <;> norm_num [ranges, centre_rpms, outer_rpms, interp]
  · rw [max_eq_left (by linarith), min_eq_left hhi.le]
    constructor <;> norm_num [ranges, centre_rpms, outer_rpms, interp]

/-- Witness for C4 at distance `20`, beyond the last sample `(11, 2400, 5000)`. -/
theorem set_range_out_of_bounds_clamps_witness :
    (set_range init 20).in_range = false ∧
    (set_range init 20).centre_target = 2400 ∧
    (set_range init 20).outer_target = 5000 := by
  have h := set_range_out_of_bounds_clamps init 20 (Or.inr (by norm_num))
  exact ⟨h.1, (h.2.2 (by norm_num)).1, (h.2.2 (by norm_num)).2⟩

end Shooter

namespace Shooter

/-- C1: the spec requires feedforward to default to zero on a zero supply
voltage, but `execute` divides by the measured voltage with no guard: at
`voltage = 0` the cycle aborts with Python's `ZeroDivisionError` instead of
commanding a zero feedforward. -/
theorem execute_zero_voltage_errors :
    execute init 0 = Except.error "float division by zero" := rfl

/-- C2 counterexample: with a centre target of `1` rps and a 12 V supply,
the demand handed to the motor driver is `1 * RPS_TO_CTRE_UNITS = 204.8`
counts per 100 ms, not the target unchanged. -/
theorem execute_setpoint_unscaled_cex :
    ¬ (∀ (s : State) (v : ℚ) (out : ExecOut) (s2 : State),
        execute s v = Except.ok (out, s2) →
        out.centre.setpoint = s.centre_target ∧ out.outer.setpoint = s.outer_target) := by
  intro h
  have hex : execute { init with centre_target := 1 } 12 =
      Except.ok (⟨⟨1024/5, 67/3000⟩, ⟨0, 0⟩, false⟩, { init with centre_target := 1 }) := by
    norm_num [execute, init, SimpleMotorFeedforward.calculate, signum, centre_ff_calculator,
      outer_ff_calculator, RPS_TO_CTRE_UNITS, COUNTS_PER_REV]
  have h1 := (h _ _ _ _ hex).1
  norm_num [init] at h1

/-- C2 (amended): the feedback setpoint emitted to each motor driver is the
target velocity scaled by `RPS_TO_CTRE_UNITS` (encoder counts per 100 ms),
not the raw rps value. -/
theorem execute_setpoint_scaling (s : State) (v : ℚ) (out : ExecOut) (s2 : State)
    (h : execute s v = Except.ok (out, s2)) :
    out.centre.setpoint = s.centre_target * RPS_TO_CTRE_UNITS ∧
    out.outer.setpoint = s.outer_target * RPS_TO_CTRE_UNITS := by
  rw [execute] at h
  by_cases hv : v = 0
  · rw [if_pos hv] at h
    simp at h
  · rw [if_neg hv] at h
    simp only [Except.ok.injEq, Prod.mk.injEq] at h
    obtain ⟨rfl, -⟩ := h
    exact ⟨rfl, rfl⟩

/-- Witness for C2's amended claim at the startup state and a 12 V supply. -/
theorem execute_setpoint_scaling_witness :
    (ExecOut.mk ⟨0, 0⟩ ⟨0, 0⟩ false).centre.setpoint = init.centre_target * RPS_TO_CTRE_UNITS ∧
    (ExecOut.mk ⟨0, 0⟩ ⟨0, 0⟩ false).outer.setpoint = init.outer_target * RPS_TO_CTRE_UNITS :=
  execute_setpoint_scaling init 12 _ init
    (by norm_num [execute, init, SimpleMotorFeedforward.calculate, signum, centre_ff_calculator,
      outer_ff_calculator, RPS_TO_CTRE_UNITS, COUNTS_PER_REV])

/-- C5 counterexample: at a centre target of `-100` rps with the measured
centre velocity also `-100` rps (sensor `-20480` counts per 100 ms), the
claim's predicate `|target - measured| <= |target| * 0.05` holds for both
flywheels, yet `is_at_speed` is `false`: the source compares against the
signed product `target * tolerance`, which is negative here. -/
theorem is_at_speed_abs_tolerance_cex :
    is_at_speed { init with centre_target := -100 } (-20480) 0 = false ∧
    |(-100 : ℚ) - get_centre_velocity (-20480)| ≤ |(-100 : ℚ)| * 0.05 ∧
    |(0 : ℚ) - get_outer_velocity 0| ≤ |(0 : ℚ)| * 0.05 := by
  norm_num [is_at_speed, centre_at_speed, outer_at_speed, init, get_centre_velocity,
    get_outer_velocity, CTRE_UNITS_TO_RPS, RPS_TO_CTRE_UNITS, COUNTS_PER_REV]

/-- C5 (amended): when the velocity tolerance has its constructed value
`0.05`, `is_at_speed` is `true` iff, for each flywheel,
`|target - measured| <= target * 0.05` — the signed target, not its
absolute value, scales the tolerance window; error exactly at 5% of the
target is accepted. -/
theorem is_at_speed_iff_signed_tolerance (s : State) (cs os : ℚ)
    (htol : s.velocity_tolerance = 0.05) :
    is_at_speed s cs os = true ↔
      (|s.centre_target - get_centre_velocity cs| ≤ s.centre_target * 0.05 ∧
       |s.outer_target - get_outer_velocity os| ≤ s.outer_target * 0.05) := by
  simp [is_at_speed, centre_at_speed, outer_at_speed, htol]

/-- Witness for C5's amended claim at the 5% boundary: targets `100` rps,
measured centre velocity `95` rps (error exactly 5%), measured outer
velocity `100` rps. -/
theorem is_at_speed_iff_signed_tolerance_witness :
    is_at_speed { init with centre_target := 100, outer_target := 100 } 19456 20480 = true :=
  (is_at_speed_iff_signed_tolerance _ 19456 20480 rfl).mpr
    (by norm_num [get_centre_velocity, get_outer_velocity, CTRE_UNITS_TO_RPS,
      RPS_TO_CTRE_UNITS, COUNTS_PER_REV])

/-- C6: `is_ready` is `true` iff the range flag is set, both flywheels are
at speed, and the piston reports no pulse in progress; it is `false`
whenever any one of those conditions fails. -/
theorem is_ready_iff (s : State) (cs os : ℚ) (piston : Bool) :
    is_ready s cs os piston = true ↔
      (s.in_range = true ∧ centre_at_speed s cs = true ∧ outer_at_speed s os = true ∧
       piston = false) := by
  simp [is_ready, is_in_range, is_at_speed, is_firing, and_assoc]

/-- C7: from an idle state, `fire` followed by one `execute` issues exactly
one pulse-start command and clears the pending flag; a second `execute`
without an intervening `fire` issues no pulse. -/
theorem fire_then_execute_single_pulse (s : State) (v : ℚ)
    (_hidle : s.inject = false) (hv : v ≠ 0) :
    ∃ out1 s1 out2 s2,
      execute (fire s) v = Except.ok (out1, s1) ∧ out1.pulse = true ∧ s1.inject = false ∧
      execute s1 v = Except.ok (out2, s2) ∧ out2.pulse = false := by
  have e1 : execute (fire s) v = Except.ok
      ({ centre := { setpoint := s.centre_target * RPS_TO_CTRE_UNITS
                     feedforward := centre_ff_calculator.calculate s.centre_target / v }
         outer := { setpoint := s.outer_target * RPS_TO_CTRE_UNITS
                    feedforward := outer_ff_calculator.calculate s.outer_target / v }
         pulse := true }, { s with inject := false }) := by
    simp [execute, fire, hv]
  have e2 : execute { s with inject := false } v = Except.ok
      ({ centre := { setpoint := s.centre_target * RPS_TO_CTRE_UNITS
                     feedforward := centre_ff_calculator.calculate s.centre_target / v }
         outer := { setpoint := s.outer_target * RPS_TO_CTRE_UNITS
                    feedforward := outer_ff_calculator.calculate s.outer_target / v }
         pulse := false }, { s with inject := false }) := by
    simp [execute, hv]
  exact ⟨_, _, _, _, e1, rfl, rfl, e2, rfl⟩

/-- Witness for C7 from the startup state with a 12 V supply. -/
theorem fire_then_execute_single_pulse_witness :
    ∃ out1 s1 out2 s2,
      execute (fire init) 12 = Except.ok (out1, s1) ∧ out1.pulse = true ∧ s1.inject = false ∧
      execute s1 12 = Except.ok (out2, s2) ∧ out2.pulse = false :=
  fire_then_execute_single_pulse init 12 rfl (by norm_num)

/-- C8: with a nonzero supply voltage, a flywheel whose target is exactly
zero gets a feedforward of exactly zero: the velocity term vanishes and the
static term is scaled by `signum 0 = 0`. -/
theorem zero_target_zero_feedforward (s : State) (v : ℚ) (out : ExecOut) (s2 : State)
    (hv : v ≠ 0) (h : execute s v = Except.ok (out, s2)) :
    (s.centre_target = 0 → out.centre.feedforward = 0) ∧
    (s.outer_target = 0 → out.outer.feedforward = 0) := by
  rw [execute, if_neg hv] at h
  simp only [Except.ok.injEq, Prod.mk.injEq] at h
  obtain ⟨rfl, -⟩ := h
  constructor <;> intro h0 <;>
    simp [h0, SimpleMotorFeedforward.calculate, signum]

/-- Witness for C8 at the startup state (both targets zero) and 12 V. -/
theorem zero_target_zero_feedforward_witness :
    ((ExecOut.mk ⟨0, 0⟩ ⟨0, 0⟩ false).centre.feedforward = 0) ∧
    ((ExecOut.mk ⟨0, 0⟩ ⟨0, 0⟩ false).outer.feedforward = 0) := by
  have h := zero_target_zero_feedforward init 12 (ExecOut.mk ⟨0, 0⟩ ⟨0, 0⟩ false) init
    (by norm_num)
    (by norm_num [execute, init, SimpleMotorFeedforward.calculate, signum, centre_ff_calculator,
      outer_ff_calculator, RPS_TO_CTRE_UNITS, COUNTS_PER_REV])
  exact ⟨h.1 rfl, h.2 rfl⟩

/-- C9: `set_range` writes only the targets and the range flag — the
pending fire-request flag and the velocity tolerance are untouched. -/
theorem set_range_frame (s : State) (d : ℚ) :
    (set_range s d).inject = s.inject ∧
    (set_range s d).velocity_tolerance = s.velocity_tolerance := by
  simp only [set_range]
  split_ifs <;> exact ⟨rfl, rfl⟩

/-- C10: when a flywheel's target is exactly zero, the tolerance window
collapses to a point: `is_at_speed` can be `true` only if that flywheel's
measured velocity is exactly zero. -/
theorem zero_target_collapses_tolerance (s : State) (cs os : ℚ) :
    (s.centre_target = 0 → is_at_speed s cs os = true → get_centre_velocity cs = 0) ∧
    (s.outer_target = 0 → is_at_speed s cs os = true → get_outer_velocity os = 0) := by
  constructor <;> intro h0 hat <;>
    simp only [is_at_speed, Bool.and_eq_true] at hat
  · have hc := hat.1
    simp only [centre_at_speed, h0, zero_sub, abs_neg, zero_mul, decide_eq_true_eq] at hc
    exact abs_nonpos_iff.mp hc
  · have ho := hat.2
    simp only [outer_at_speed, h0, zero_sub, abs_neg, zero_mul, decide_eq_true_eq] at ho
    exact abs_nonpos_iff.mp ho

/-- Witness for C10 at the startup state, where both targets default to
zero and both measured velocities are zero. -/
theorem zero_target_collapses_tolerance_witness :
    get_centre_velocity 0 = 0 ∧ get_outer_velocity 0 = 0 := by
  have h := zero_target_collapses_tolerance init 0 0
  have hat : is_at_speed init 0 0 = true := by
    norm_num [is_at_speed, centre_at_speed, outer_at_speed, init, get_centre_velocity,
      get_outer_velocity, CTRE_UNITS_TO_RPS, RPS_TO_CTRE_UNITS, COUNTS_PER_REV]
  exact ⟨h.1 rfl hat, h.2 rfl hat⟩

end Shooter
